import Mathlib

/- Shallow embedding of the flytbase drone deconfliction system
   (src/src/conflict_checks.py, src/src/utils.py, src/src/models.py, and the
   status mapping of src/deconfliction_system.py).

   Python floats are modelled as exact rationals; every value produced by
   math.sqrt lives in the reals, and each source function that returns
   math.sqrt of a squared norm is embedded as Real.sqrt applied to a
   rational squared-norm function whose branch structure mirrors the source
   line by line.  Python ints are modelled as Int.

   The 3D engine assumes waypoints carrying x, y, z and a timestamp, and is
   embedded over such a structure (Waypoint below).  The Waypoint dataclass
   actually declared in src/src/models.py has only the fields x, y and
   timestamp_minutes; that dataclass, Python attribute lookup on it, and
   Python keyword-argument construction of it are embedded separately
   (DCWaypoint and the run/loader layer near the end of the definitions),
   which is what settles the claims about the field mismatch. -/

set_option maxHeartbeats 1000000

/-- Tolerance for floating point comparisons (src/src/conflict_checks.py line 7). -/
def FLOAT_TOLERANCE : ℚ := 1e-9

/-- Waypoint as the 3D engine (src/src/conflict_checks.py, src/src/utils.py)
uses it: x, y, z coordinates and a timestamp in minutes since midnight. -/
structure Waypoint where
  x : ℚ
  y : ℚ
  z : ℚ
  timestamp_minutes : ℤ
deriving DecidableEq

/-- DroneMission (src/src/models.py lines 14-18): drone id plus the ordered
waypoint list. -/
structure DroneMission where
  drone_id : String
  waypoints : List Waypoint
deriving DecidableEq

/-- get_path_segments (src/src/models.py lines 20-31): the list of pairs of
consecutive waypoints, empty when there are fewer than two waypoints. -/
def DroneMission.get_path_segments (m : DroneMission) : List (Waypoint × Waypoint) :=
  m.waypoints.zip m.waypoints.tail

/-- The x/y/z dicts built by the geometry helpers of
src/src/conflict_checks.py lines 21-28. -/
structure Vec3 where
  x : ℚ
  y : ℚ
  z : ℚ
deriving DecidableEq

/-- Source at src/src/conflict_checks.py lines 21-22. -/
def _subtract_vectors (v1 v2 : Waypoint) : Vec3 :=
  ⟨v1.x - v2.x, v1.y - v2.y, v1.z - v2.z⟩

/-- Source at src/src/conflict_checks.py lines 24-25. -/
def _dot_product (vec1 vec2 : Vec3) : ℚ :=
  vec1.x * vec2.x + vec1.y * vec2.y + vec1.z * vec2.z

/-- Source at src/src/conflict_checks.py lines 27-28. -/
def _vector_norm_sq (vec : Vec3) : ℚ :=
  vec.x ^ 2 + vec.y ^ 2 + vec.z ^ 2

/-- The squared distance underneath distance_point_to_segment_3d
(src/src/conflict_checks.py lines 30-59): each branch of the source returns
math.sqrt of the squared norm computed here, with identical branch
conditions; the single sqrt application is distance_point_to_segment_3d
below. -/
def distSq_point_to_segment (point seg_start seg_end : Waypoint) : ℚ :=
  let segment_vec := _subtract_vectors seg_end seg_start
  let point_to_start_vec := _subtract_vectors point seg_start
  let seg_len_sq := _vector_norm_sq segment_vec
  if seg_len_sq < FLOAT_TOLERANCE then
    _vector_norm_sq point_to_start_vec
  else
    let t := _dot_product point_to_start_vec segment_vec / seg_len_sq
    if t < 0 then
      _vector_norm_sq point_to_start_vec
    else if t > 1 then
      _vector_norm_sq (_subtract_vectors point seg_end)
    else
      let closest_point_on_line : Vec3 :=
        ⟨seg_start.x + t * segment_vec.x, seg_start.y + t * segment_vec.y,
         seg_start.z + t * segment_vec.z⟩
      let distance_vec : Vec3 :=
        ⟨point.x - closest_point_on_line.x, point.y - closest_point_on_line.y,
         point.z - closest_point_on_line.z⟩
      _vector_norm_sq distance_vec

/-- distance_point_to_segment_3d (src/src/conflict_checks.py lines 30-59):
minimum distance from a 3D point to a 3D line segment. -/
noncomputable def distance_point_to_segment_3d (point seg_start seg_end : Waypoint) : ℝ :=
  Real.sqrt (distSq_point_to_segment point seg_start seg_end)

/-- check_segment_spatial_conflict (src/src/conflict_checks.py lines 63-101):
the early-return chain over the four endpoint-to-opposite-segment distances,
as a disjunction. -/
def check_segment_spatial_conflict (segment1 segment2 : Waypoint × Waypoint)
    (safety_buffer : ℚ) : Prop :=
  distance_point_to_segment_3d segment1.1 segment2.1 segment2.2
      < (safety_buffer : ℝ) - (FLOAT_TOLERANCE : ℝ) ∨
    distance_point_to_segment_3d segment1.2 segment2.1 segment2.2
      < (safety_buffer : ℝ) - (FLOAT_TOLERANCE : ℝ) ∨
    distance_point_to_segment_3d segment2.1 segment1.1 segment1.2
      < (safety_buffer : ℝ) - (FLOAT_TOLERANCE : ℝ) ∨
    distance_point_to_segment_3d segment2.2 segment1.1 segment1.2
      < (safety_buffer : ℝ) - (FLOAT_TOLERANCE : ℝ)

/-- Decidability of a sqrt-of-rational comparison against a rational bound:
used to give the spatial check its Decidable instance. -/
def decSqrtLtSub (q b eps : ℚ) :
    Decidable (Real.sqrt (q : ℝ) < (b : ℝ) - (eps : ℝ)) :=
  decidable_of_iff (0 < b - eps ∧ q < (b - eps) ^ 2) (by
    have hcast : ((b - eps : ℚ) : ℝ) = (b : ℝ) - (eps : ℝ) := by push_cast; ring
    rw [← hcast]
    constructor
    · rintro ⟨hc, hq⟩
      have hc' : (0 : ℝ) < ((b - eps : ℚ) : ℝ) := by exact_mod_cast hc
      refine (Real.sqrt_lt' hc').mpr ?_
      exact_mod_cast hq
    · intro h
      have hc' : (0 : ℝ) < ((b - eps : ℚ) : ℝ) :=
        lt_of_le_of_lt (Real.sqrt_nonneg _) h
      have hq := (Real.sqrt_lt' hc').mp h
      exact ⟨by exact_mod_cast hc', by exact_mod_cast hq⟩)

instance (segment1 segment2 : Waypoint × Waypoint) (safety_buffer : ℚ) :
    Decidable (check_segment_spatial_conflict segment1 segment2 safety_buffer) := by
  letI : ∀ p s e : Waypoint,
      Decidable (distance_point_to_segment_3d p s e
        < (safety_buffer : ℝ) - (FLOAT_TOLERANCE : ℝ)) :=
    fun p s e => decSqrtLtSub (distSq_point_to_segment p s e) safety_buffer FLOAT_TOLERANCE
  unfold check_segment_spatial_conflict
  infer_instance

/-- _get_time_interval_for_segment (src/src/conflict_checks.py lines 9-17):
(min, max) of the two endpoint timestamps. -/
def _get_time_interval_for_segment (segment : Waypoint × Waypoint) : ℤ × ℤ :=
  (min segment.1.timestamp_minutes segment.2.timestamp_minutes,
   max segment.1.timestamp_minutes segment.2.timestamp_minutes)

/-- The interval-overlap formula of check_spatio_temporal_segment_conflict
(src/src/conflict_checks.py lines 126-131). -/
def segmentsTemporalOverlap (segment1 segment2 : Waypoint × Waypoint) : Bool :=
  let i1 := _get_time_interval_for_segment segment1
  let i2 := _get_time_interval_for_segment segment2
  decide (i1.1 ≤ i2.2) && decide (i2.1 ≤ i1.2)

/-- check_spatio_temporal_segment_conflict (src/src/conflict_checks.py lines
103-133): spatial conflict first, then temporal overlap. -/
def check_spatio_temporal_segment_conflict (segment1 segment2 : Waypoint × Waypoint)
    (safety_buffer : ℚ) : Prop :=
  check_segment_spatial_conflict segment1 segment2 safety_buffer ∧
    segmentsTemporalOverlap segment1 segment2 = true

instance (segment1 segment2 : Waypoint × Waypoint) (safety_buffer : ℚ) :
    Decidable (check_spatio_temporal_segment_conflict segment1 segment2 safety_buffer) := by
  unfold check_spatio_temporal_segment_conflict
  infer_instance

/-- check_waypoint_collision (src/src/conflict_checks.py lines 135-159):
exact timestamp equality, then the three coordinate matches within
FLOAT_TOLERANCE. -/
def check_waypoint_collision (wp1 wp2 : Waypoint) : Bool :=
  if wp1.timestamp_minutes ≠ wp2.timestamp_minutes then false
  else
    let x_match := decide (|wp1.x - wp2.x| < FLOAT_TOLERANCE)
    let y_match := decide (|wp1.y - wp2.y| < FLOAT_TOLERANCE)
    let z_match := decide (|wp1.z - wp2.z| < FLOAT_TOLERANCE)
    x_match && y_match && z_match

/-- The structured content of one conflict description string appended by
find_conflicts (src/src/conflict_checks.py lines 201-204 and 215-216): the
string formatting itself is not modelled, the data interpolated into it is. -/
inductive ConflictRecord where
  | segment (primary_index : ℕ) (primary_window : ℤ × ℤ) (other_drone_id : String)
      (other_index : ℕ) (other_window : ℤ × ℤ)
  | waypoint (primary_index : ℕ) (primary_wp : Waypoint) (other_drone_id : String)
      (other_index : ℕ) (other_wp : Waypoint)
deriving DecidableEq

/-- find_conflicts (src/src/conflict_checks.py lines 161-219), as the nested
left folds the imperative loops perform: the Boolean conflict_found flag is
set on every append, and records are appended to one shared list, segment
conflicts before waypoint collisions within each simulated mission. -/
def find_conflicts (primary_mission : DroneMission) (simulated_missions : List DroneMission)
    (safety_buffer : ℚ) : Bool × List ConflictRecord :=
  let primary_segments := primary_mission.get_path_segments
  let primary_waypoints := primary_mission.waypoints
  simulated_missions.foldl (fun acc sim_mission =>
    let sim_segments := sim_mission.get_path_segments
    let sim_waypoints := sim_mission.waypoints
    let acc1 := primary_segments.enum.foldl (fun a p =>
      sim_segments.enum.foldl (fun a2 s =>
        if check_spatio_temporal_segment_conflict p.2 s.2 safety_buffer then
          (true, a2.2 ++ [ConflictRecord.segment p.1 (_get_time_interval_for_segment p.2)
            sim_mission.drone_id s.1 (_get_time_interval_for_segment s.2)])
        else a2) a) acc
    primary_waypoints.enum.foldl (fun a pw =>
      sim_waypoints.enum.foldl (fun a2 sw =>
        if check_waypoint_collision pw.2 sw.2 then
          (true, a2.2 ++ [ConflictRecord.waypoint pw.1 pw.2 sim_mission.drone_id sw.1 sw.2])
        else a2) a) acc1)
    (false, [])

/-- The segment-conflict records one simulated mission contributes, written
directly in enumeration order (primary index outer, other index inner): the
shape the reporting order of find_conflicts is checked against. -/
def segmentConflictRecords (primary_mission sim_mission : DroneMission)
    (safety_buffer : ℚ) : List ConflictRecord :=
  primary_mission.get_path_segments.enum.flatMap (fun p =>
    sim_mission.get_path_segments.enum.filterMap (fun s =>
      if check_spatio_temporal_segment_conflict p.2 s.2 safety_buffer then
        some (ConflictRecord.segment p.1 (_get_time_interval_for_segment p.2)
          sim_mission.drone_id s.1 (_get_time_interval_for_segment s.2))
      else none))

/-- The waypoint-collision records one simulated mission contributes, in
enumeration order (primary index outer, other index inner). -/
def waypointCollisionRecords (primary_mission sim_mission : DroneMission) :
    List ConflictRecord :=
  primary_mission.waypoints.enum.flatMap (fun pw =>
    sim_mission.waypoints.enum.filterMap (fun sw =>
      if check_waypoint_collision pw.2 sw.2 then
        some (ConflictRecord.waypoint pw.1 pw.2 sim_mission.drone_id sw.1 sw.2)
      else none))

/-- How check_mission_conflicts (src/deconfliction_system.py lines 53-57)
maps the Boolean returned by find_conflicts to the clearance status. -/
def missionStatus (conflict_found : Bool) : String :=
  if conflict_found then "Conflict Detected" else "Clear"

/-- _parse_hhmm_to_minutes (src/src/utils.py lines 9-20): range check on the
HHMM value, decomposition, hour/minute check, conversion to minutes since
midnight.  Raised ValueErrors are modelled as Except.error. -/
def _parse_hhmm_to_minutes (hhmm : ℤ) : Except String ℤ :=
  if ¬(0 ≤ hhmm ∧ hhmm ≤ 2359) then
    Except.error "ValueError: Invalid HHMM time format. Must be an integer between 0 and 2359."
  else
    let hour := hhmm / 100
    let minute := hhmm % 100
    if ¬(0 ≤ hour ∧ hour ≤ 23 ∧ 0 ≤ minute ∧ minute ≤ 59) then
      Except.error "ValueError: Invalid HHMM time value. Hour must be 0-23, Minute must be 0-59."
    else
      Except.ok (hour * 60 + minute)

/-- A raw primary-mission waypoint dict with keys x, y, z
(src/src/utils.py lines 106-117). -/
structure P3 where
  x : ℚ
  y : ℚ
  z : ℚ
deriving DecidableEq

/-- The squared norm underneath _calculate_distance (src/src/utils.py lines
23-31). -/
def _calculate_distance_sq (p1 p2 : P3) : ℚ :=
  (p2.x - p1.x) ^ 2 + (p2.y - p1.y) ^ 2 + (p2.z - p1.z) ^ 2

/-- _calculate_distance (src/src/utils.py lines 23-31): Euclidean distance
between two raw points. -/
noncomputable def _calculate_distance (p1 p2 : P3) : ℝ :=
  Real.sqrt (_calculate_distance_sq p1 p2)

/-- The total polyline length of src/src/utils.py lines 143-147. -/
noncomputable def total_distance_of : List P3 → ℝ
  | p1 :: p2 :: rest => _calculate_distance p1 p2 + total_distance_of (p2 :: rest)
  | _ => 0

/-- Python 3 round(): round half to even.  Used where src/src/utils.py line
182 calls round() on the accumulated float time. -/
noncomputable def pyRound (x : ℝ) : ℤ :=
  if Int.fract x = 1 / 2 then (if 2 ∣ ⌊x⌋ then ⌊x⌋ else ⌊x⌋ + 1) else round x

/-- The per-segment travel time of src/src/utils.py lines 165-175: the
constant-speed time, with the fallback that distributes the remaining time
over the remaining segments when the speed is at most 1e-9. -/
noncomputable def time_for_segment (speed segment_distance : ℝ) (remaining_segments : ℕ)
    (end_time_minutes : ℤ) (current_time_minutes : ℝ) : ℝ :=
  if speed > (1e-9 : ℝ) then segment_distance / speed
  else
    let remaining_time := (end_time_minutes : ℝ) - current_time_minutes
    if remaining_segments > 0 ∧ remaining_time > 0 then
      remaining_time / (remaining_segments : ℝ)
    else 0

/-- The timestamp loop of src/src/utils.py lines 163-184: one step per
remaining raw waypoint, carrying the unrounded accumulated time; each
assigned timestamp is min(round(current), end). -/
noncomputable def timingAux (speed : ℝ) (end_time_minutes : ℤ) :
    P3 → List P3 → ℝ → List Waypoint
  | _, [], _ => []
  | prev, p :: rest, current_time_minutes =>
    let segment_distance := _calculate_distance prev p
    let time_for_segment_minutes :=
      time_for_segment speed segment_distance (rest.length + 1)
        end_time_minutes current_time_minutes
    let current' := current_time_minutes + time_for_segment_minutes
    let final_timestamp_minutes := min (pyRound current') end_time_minutes
    ⟨p.x, p.y, p.z, final_timestamp_minutes⟩ ::
      timingAux speed end_time_minutes p rest current'

/-- The final snap-to-end adjustment of src/src/utils.py lines 186-189: the
last waypoint's timestamp is set to end when it is within 1 minute of it. -/
def snapLast (end_time_minutes : ℤ) : List Waypoint → List Waypoint
  | [] => []
  | [w] =>
    if |w.timestamp_minutes - end_time_minutes| ≤ 1 then
      [{ w with timestamp_minutes := end_time_minutes }]
    else [w]
  | w :: w1 :: rest => w :: snapLast end_time_minutes (w1 :: rest)

/-- The Mission Timing Model of load_missions_from_json (src/src/utils.py
lines 131-192): timestamps for the primary mission's raw waypoints, assuming
the caller has already validated start < end.  The numeric content of the
waypoints the source constructs is returned; whether the Waypoint dataclass
accepts that construction is modelled separately in the loader layer. -/
noncomputable def calculate_waypoints (raw_waypoints : List P3)
    (start_time_minutes end_time_minutes : ℤ) : List Waypoint :=
  match raw_waypoints with
  | [] => []
  | [wp] => [⟨wp.x, wp.y, wp.z, start_time_minutes⟩]
  | wp0 :: wp1 :: rest =>
    let raw := wp0 :: wp1 :: rest
    let total_distance := total_distance_of raw
    if total_distance = 0 then
      raw.map (fun w => ⟨w.x, w.y, w.z, start_time_minutes⟩)
    else
      let total_duration_minutes : ℤ := end_time_minutes - start_time_minutes
      let speed := total_distance / (total_duration_minutes : ℝ)
      snapLast end_time_minutes
        (⟨wp0.x, wp0.y, wp0.z, start_time_minutes⟩ ::
          timingAux speed end_time_minutes wp0 (wp1 :: rest) (start_time_minutes : ℝ))

/-- The point S + u(E - S) on the line through the waypoints S and E, used to
state the point-to-segment distance properties. -/
def pointAt (S E : Waypoint) (u : ℚ) : Waypoint :=
  ⟨S.x + u * (E.x - S.x), S.y + u * (E.y - S.y), S.z + u * (E.z - S.z),
   S.timestamp_minutes⟩

/-- The Waypoint dataclass as actually declared in src/src/models.py lines
6-11: fields x, y and timestamp_minutes only, no z. -/
structure DCWaypoint where
  x : ℚ
  y : ℚ
  timestamp_minutes : ℤ
deriving DecidableEq

/-- The field names of the Waypoint dataclass of src/src/models.py. -/
def waypointFields : List String :=
  ["x", "y", "timestamp_minutes"]

/-- Python attribute lookup for the coordinate attributes on the declared
dataclass: accessing a name that is not a field raises AttributeError. -/
def DCWaypoint.pyattr (w : DCWaypoint) (name : String) : Except String ℚ :=
  if name = "x" then Except.ok w.x
  else if name = "y" then Except.ok w.y
  else Except.error ("AttributeError: Waypoint object has no attribute " ++ name)

/-- _subtract_vectors (src/src/conflict_checks.py lines 21-22) evaluated on
the declared dataclass: the dict entries read v.x, v.y and v.z in order, and
the z reads go through attribute lookup. -/
def _subtract_vectors_run (v1 v2 : DCWaypoint) : Except String Vec3 := do
  let x1 ← v1.pyattr "x"
  let x2 ← v2.pyattr "x"
  let y1 ← v1.pyattr "y"
  let y2 ← v2.pyattr "y"
  let z1 ← v1.pyattr "z"
  let z2 ← v2.pyattr "z"
  pure ⟨x1 - x2, y1 - y2, z1 - z2⟩

/-- distance_point_to_segment_3d evaluated on the declared dataclass: its
first statement already calls _subtract_vectors. -/
noncomputable def distance_point_to_segment_3d_run (point seg_start seg_end : DCWaypoint) :
    Except String ℝ := do
  let segment_vec ← _subtract_vectors_run seg_end seg_start
  let point_to_start_vec ← _subtract_vectors_run point seg_start
  let seg_len_sq := _vector_norm_sq segment_vec
  if seg_len_sq < FLOAT_TOLERANCE then
    pure (Real.sqrt (_vector_norm_sq point_to_start_vec))
  else
    let t := _dot_product point_to_start_vec segment_vec / seg_len_sq
    if t < 0 then
      pure (Real.sqrt (_vector_norm_sq point_to_start_vec))
    else if t > 1 then do
      let point_to_end_vec ← _subtract_vectors_run point seg_end
      pure (Real.sqrt (_vector_norm_sq point_to_end_vec))
    else do
      let sx ← seg_start.pyattr "x"
      let sy ← seg_start.pyattr "y"
      let sz ← seg_start.pyattr "z"
      let px ← point.pyattr "x"
      let py ← point.pyattr "y"
      let pz ← point.pyattr "z"
      pure (Real.sqrt (_vector_norm_sq
        ⟨px - (sx + t * segment_vec.x), py - (sy + t * segment_vec.y),
         pz - (sz + t * segment_vec.z)⟩))

/-- check_segment_spatial_conflict (src/src/conflict_checks.py lines 63-101)
evaluated on the declared dataclass. -/
noncomputable def check_segment_spatial_conflict_run
    (segment1 segment2 : DCWaypoint × DCWaypoint) (safety_buffer : ℚ) :
    Except String Bool := do
  let d1 ← distance_point_to_segment_3d_run segment1.1 segment2.1 segment2.2
  if d1 < (safety_buffer : ℝ) - (FLOAT_TOLERANCE : ℝ) then pure true
  else do
    let d2 ← distance_point_to_segment_3d_run segment1.2 segment2.1 segment2.2
    if d2 < (safety_buffer : ℝ) - (FLOAT_TOLERANCE : ℝ) then pure true
    else do
      let d3 ← distance_point_to_segment_3d_run segment2.1 segment1.1 segment1.2
      if d3 < (safety_buffer : ℝ) - (FLOAT_TOLERANCE : ℝ) then pure true
      else do
        let d4 ← distance_point_to_segment_3d_run segment2.2 segment1.1 segment1.2
        if d4 < (safety_buffer : ℝ) - (FLOAT_TOLERANCE : ℝ) then pure true
        else pure false

/-- check_waypoint_collision (src/src/conflict_checks.py lines 135-159)
evaluated on the declared dataclass: the timestamp comparison succeeds, the
x and y matches succeed, and the z match (line 157) reads the missing
attribute. -/
def check_waypoint_collision_run (wp1 wp2 : DCWaypoint) : Except String Bool :=
  if wp1.timestamp_minutes ≠ wp2.timestamp_minutes then pure false
  else do
    let x1 ← wp1.pyattr "x"
    let x2 ← wp2.pyattr "x"
    let y1 ← wp1.pyattr "y"
    let y2 ← wp2.pyattr "y"
    let z1 ← wp1.pyattr "z"
    let z2 ← wp2.pyattr "z"
    pure (decide (|x1 - x2| < FLOAT_TOLERANCE) && decide (|y1 - y2| < FLOAT_TOLERANCE) &&
      decide (|z1 - z2| < FLOAT_TOLERANCE))

/-- A simulated-mission waypoint dict with keys x, y, z, timestamp
(src/src/utils.py lines 76-88). -/
structure SimWaypointData where
  x : ℚ
  y : ℚ
  z : ℚ
  timestamp : ℤ
deriving DecidableEq

/-- A simulated-mission dict with keys drone_id, waypoints. -/
structure SimMissionData where
  drone_id : String
  waypoints : List SimWaypointData

/-- The primary-mission dict with keys drone_id, waypoints, start_time,
end_time (src/src/utils.py lines 98-117). -/
structure PrimaryMissionData where
  drone_id : String
  waypoints : List P3
  start_time : ℤ
  end_time : ℤ

/-- A parsed mission file whose key-presence checks all pass. -/
structure MissionFileData where
  primary_mission : PrimaryMissionData
  simulated_missions : List SimMissionData

/-- A mission over the declared dataclass waypoints. -/
structure DCMission where
  drone_id : String
  waypoints : List DCWaypoint

/-- Python dataclass construction semantics: a keyword call is accepted iff
every keyword is a declared field and every declared field is supplied. -/
def dataclassAccepts (fields kwargs : List String) : Bool :=
  kwargs.all (fun k => fields.contains k) && fields.all (fun f => kwargs.contains f)

/-- The keyword set of every Waypoint construction in src/src/utils.py
(lines 85, 140, 153, 160, 184): x, y, z and timestamp_minutes. -/
def waypointCtorKwargs : List String :=
  ["x", "y", "z", "timestamp_minutes"]

/-- Waypoint(x=..., y=..., z=..., timestamp_minutes=...) against the
dataclass declared in src/src/models.py: a TypeError unless the keyword set
matches the declared fields. -/
def mkWaypointWithZ (x y z : ℚ) (timestamp_minutes : ℤ) : Except String DCWaypoint :=
  if dataclassAccepts waypointFields waypointCtorKwargs then
    Except.ok ⟨x, y, timestamp_minutes⟩
  else
    Except.error "TypeError: Waypoint.init got an unexpected keyword argument z"

/-- One simulated waypoint through src/src/utils.py lines 82-88: HHMM parse,
then Waypoint construction; any ValueError/TypeError/KeyError is re-raised
as a ValueError. -/
def loadSimWaypoint (drone_id : String) (wp_data : SimWaypointData) :
    Except String DCWaypoint :=
  match ((do
      let timestamp_minutes ← _parse_hhmm_to_minutes wp_data.timestamp
      mkWaypointWithZ wp_data.x wp_data.y wp_data.z timestamp_minutes) :
      Except String DCWaypoint) with
  | Except.ok w => Except.ok w
  | Except.error e =>
    Except.error ("ValueError: Invalid data in waypoint for simulated drone "
      ++ drone_id ++ ". Details: " ++ e)

/-- One simulated mission through src/src/utils.py lines 71-92: waypoints,
then the sort by timestamp. -/
def loadSimMission (sim_data : SimMissionData) : Except String DCMission := do
  let sim_waypoints ← sim_data.waypoints.mapM (loadSimWaypoint sim_data.drone_id)
  pure ⟨sim_data.drone_id,
    sim_waypoints.insertionSort (fun a b => a.timestamp_minutes ≤ b.timestamp_minutes)⟩

/-- load_missions_from_json (src/src/utils.py lines 33-194) after JSON
parsing and key-presence checks: simulated missions first, then the primary
mission validations, then the timing model with Waypoint construction. -/
noncomputable def load_missions_from_json (data : MissionFileData) :
    Except String (DCMission × List DCMission) := do
  let simulated_missions ← data.simulated_missions.mapM loadSimMission
  let primary_data := data.primary_mission
  if primary_data.waypoints = [] then
    Except.error "ValueError: Primary mission must have at least one waypoint."
  else do
    let start_time_minutes ← _parse_hhmm_to_minutes primary_data.start_time
    let end_time_minutes ← _parse_hhmm_to_minutes primary_data.end_time
    if start_time_minutes ≥ end_time_minutes then
      Except.error "ValueError: Primary mission start_time must be before end_time."
    else do
      let calculated ← (calculate_waypoints primary_data.waypoints
          start_time_minutes end_time_minutes).mapM
        (fun w => mkWaypointWithZ w.x w.y w.z w.timestamp_minutes)
      pure (⟨primary_data.drone_id, calculated⟩, simulated_missions)

/-- The explicit validation checks of the loader, as the claims list them:
primary mission present with at least one waypoint, valid HHMM times
everywhere, start strictly before end. -/
def passesValidation (data : MissionFileData) : Bool :=
  !data.primary_mission.waypoints.isEmpty &&
  (_parse_hhmm_to_minutes data.primary_mission.start_time).isOk &&
  (_parse_hhmm_to_minutes data.primary_mission.end_time).isOk &&
  (match _parse_hhmm_to_minutes data.primary_mission.start_time,
      _parse_hhmm_to_minutes data.primary_mission.end_time with
    | Except.ok s, Except.ok e => decide (s < e)
    | _, _ => false) &&
  data.simulated_missions.all (fun sim =>
    sim.waypoints.all (fun wp => (_parse_hhmm_to_minutes wp.timestamp).isOk))

/- Helper lemmas. -/

theorem except_bind_ok {α β : Type} (a : α) (k : α → Except String β) :
    (Except.ok a >>= k) = k a := rfl

theorem except_bind_error {α β : Type} (e : String) (k : α → Except String β) :
    ((Except.error e : Except String α) >>= k) = Except.error e := rfl

/-- Claim C1: check_segment_spatial_conflict holds iff one of the four
endpoint-to-opposite-segment distances is strictly below
safety_buffer - 1e-9; equivalently, iff the minimum of the four distances is
strictly below that bound, so a pair whose minimum endpoint-to-segment
distance equals the buffer, or lies within 1e-9 below it, is not reported. -/
theorem check_segment_spatial_conflict_spec (segment1 segment2 : Waypoint × Waypoint)
    (safety_buffer : ℚ) :
    (check_segment_spatial_conflict segment1 segment2 safety_buffer ↔
      (distance_point_to_segment_3d segment1.1 segment2.1 segment2.2
          < (safety_buffer : ℝ) - (FLOAT_TOLERANCE : ℝ) ∨
        distance_point_to_segment_3d segment1.2 segment2.1 segment2.2
          < (safety_buffer : ℝ) - (FLOAT_TOLERANCE : ℝ) ∨
        distance_point_to_segment_3d segment2.1 segment1.1 segment1.2
          < (safety_buffer : ℝ) - (FLOAT_TOLERANCE : ℝ) ∨
        distance_point_to_segment_3d segment2.2 segment1.1 segment1.2
          < (safety_buffer : ℝ) - (FLOAT_TOLERANCE : ℝ))) ∧
    (check_segment_spatial_conflict segment1 segment2 safety_buffer ↔
      min (min (distance_point_to_segment_3d segment1.1 segment2.1 segment2.2)
          (distance_point_to_segment_3d segment1.2 segment2.1 segment2.2))
        (min (distance_point_to_segment_3d segment2.1 segment1.1 segment1.2)
          (distance_point_to_segment_3d segment2.2 segment1.1 segment1.2))
        < (safety_buffer : ℝ) - (FLOAT_TOLERANCE : ℝ)) := by
  constructor
  · exact Iff.rfl
  · unfold check_segment_spatial_conflict
    simp [min_lt_iff, or_assoc]

/-- Claim C2: check_waypoint_collision is true iff the timestamps are equal
as integers and each coordinate difference is below 1e-9 in absolute value;
perturbing any single coordinate of a waypoint by more than 1e-9 makes the
collision with the original waypoint false. -/
theorem check_waypoint_collision_spec (wp1 wp2 : Waypoint) (d : ℚ)
    (hd : FLOAT_TOLERANCE < |d|) :
    (check_waypoint_collision wp1 wp2 = true ↔
      (wp1.timestamp_minutes = wp2.timestamp_minutes ∧
        |wp1.x - wp2.x| < FLOAT_TOLERANCE ∧ |wp1.y - wp2.y| < FLOAT_TOLERANCE ∧
        |wp1.z - wp2.z| < FLOAT_TOLERANCE)) ∧
    check_waypoint_collision wp1 { wp1 with x := wp1.x + d } = false ∧
    check_waypoint_collision wp1 { wp1 with y := wp1.y + d } = false ∧
    check_waypoint_collision wp1 { wp1 with z := wp1.z + d } = false := by
  have hd' : ¬ (|d| < FLOAT_TOLERANCE) := not_lt.mpr (le_of_lt hd)
  refine ⟨?_, ?_, ?_, ?_⟩
  · by_cases ht : wp1.timestamp_minutes = wp2.timestamp_minutes
    · simp [check_waypoint_collision, ht, and_assoc]
    · simp [check_waypoint_collision, ht]
  · simp [check_waypoint_collision, hd']
  · simp [check_waypoint_collision, hd']
  · simp [check_waypoint_collision, hd']

/-- Witness for claim C2 at the waypoint (10, 10, 5) at minute 500, with a
perturbation of 1e-8. -/
theorem check_waypoint_collision_spec_witness :
    check_waypoint_collision ⟨10, 10, 5, 500⟩ ⟨10 + 1 / 100000000, 10, 5, 500⟩ = false :=
  (check_waypoint_collision_spec ⟨10, 10, 5, 500⟩ ⟨10, 10, 5, 500⟩ (1 / 100000000)
    (by rw [abs_of_pos (by norm_num)]; norm_num [FLOAT_TOLERANCE])).2.1

/-- Claim C4 record: evaluated over the Waypoint dataclass actually declared
in src/src/models.py (no z field), the spatial evaluator raises an
AttributeError on every input, and the waypoint-collision evaluator raises
one on every pair with equal timestamps, instead of returning a Boolean. -/
theorem evaluators_raise_on_dataclass_waypoints :
    (∀ (segment1 segment2 : DCWaypoint × DCWaypoint) (safety_buffer : ℚ),
      ∃ msg, check_segment_spatial_conflict_run segment1 segment2 safety_buffer =
        Except.error msg) ∧
    (∀ w : DCWaypoint, ∃ msg, check_waypoint_collision_run w w = Except.error msg) := by
  constructor
  · intro segment1 segment2 safety_buffer
    exact ⟨_, rfl⟩
  · intro w
    refine ⟨"AttributeError: Waypoint object has no attribute " ++ "z", ?_⟩
    unfold check_waypoint_collision_run
    rw [if_neg (by simp)]
    rfl

/-- Claim C8: the temporal overlap formula over min/max-normalised segment
intervals holds iff s1 is at most e2 and s2 is at most e1, is symmetric in
the two segments, and holds iff some integer instant lies in both closed
intervals (single-instant intervals included). -/
theorem temporal_overlap_spec (segment1 segment2 : Waypoint × Waypoint) :
    (segmentsTemporalOverlap segment1 segment2 = true ↔
      ((_get_time_interval_for_segment segment1).1 ≤ (_get_time_interval_for_segment segment2).2 ∧
        (_get_time_interval_for_segment segment2).1 ≤ (_get_time_interval_for_segment segment1).2)) ∧
    segmentsTemporalOverlap segment1 segment2 = segmentsTemporalOverlap segment2 segment1 ∧
    (segmentsTemporalOverlap segment1 segment2 = true ↔
      ∃ t : ℤ,
        ((_get_time_interval_for_segment segment1).1 ≤ t ∧
          t ≤ (_get_time_interval_for_segment segment1).2) ∧
        ((_get_time_interval_for_segment segment2).1 ≤ t ∧
          t ≤ (_get_time_interval_for_segment segment2).2)) := by
  refine ⟨?_, ?_, ?_⟩
  · simp [segmentsTemporalOverlap]
  · simp [segmentsTemporalOverlap, Bool.and_comm]
  · simp only [segmentsTemporalOverlap, _get_time_interval_for_segment,
      Bool.and_eq_true, decide_eq_true_eq]
    constructor
    · rintro ⟨h1, h2⟩
      refine ⟨max (min segment1.1.timestamp_minutes segment1.2.timestamp_minutes)
        (min segment2.1.timestamp_minutes segment2.2.timestamp_minutes), ?_⟩
      omega
    · rintro ⟨t, ht⟩
      omega

/-- Claim C10: the HHMM converter fails exactly on inputs outside 0..2359 or
whose decomposed hour exceeds 23 or minute exceeds 59, and on every accepted
input returns hour times 60 plus minute, which lies in 0..1439. -/
theorem parse_hhmm_spec (hhmm : ℤ) :
    ((∃ e, _parse_hhmm_to_minutes hhmm = Except.error e) ↔
      (hhmm < 0 ∨ 2359 < hhmm ∨ 23 < hhmm / 100 ∨ 59 < hhmm % 100)) ∧
    (∀ m : ℤ, _parse_hhmm_to_minutes hhmm = Except.ok m →
      m = hhmm / 100 * 60 + hhmm % 100 ∧ 0 ≤ m ∧ m ≤ 1439) := by
  simp only [_parse_hhmm_to_minutes]
  by_cases h1 : 0 ≤ hhmm ∧ hhmm ≤ 2359
  · by_cases h2 : 0 ≤ hhmm / 100 ∧ hhmm / 100 ≤ 23 ∧ 0 ≤ hhmm % 100 ∧ hhmm % 100 ≤ 59
    · rw [if_neg (not_not_intro h1), if_neg (not_not_intro h2)]
      refine ⟨⟨fun h => ?_, fun h => ?_⟩, ?_⟩
      · obtain ⟨e, he⟩ := h
        cases he
      · exact absurd h (by omega)
      · intro m hm
        injection hm with hm'
        omega
    · rw [if_neg (not_not_intro h1), if_pos h2]
      refine ⟨⟨fun _ => ?_, fun _ => ⟨_, rfl⟩⟩, ?_⟩
      · omega
      · intro m hm
        cases hm
  · rw [if_pos h1]
    refine ⟨⟨fun _ => ?_, fun _ => ⟨_, rfl⟩⟩, ?_⟩
    · omega
    · intro m hm
      cases hm


/- Rounding lemmas for the timing model. -/

theorem pyRound_intCast (n : ℤ) : pyRound ((n : ℤ) : ℝ) = n := by
  have h : Int.fract ((n : ℤ) : ℝ) ≠ 1 / 2 := by
    rw [Int.fract_intCast]
    norm_num
  simp only [pyRound, if_neg h, round_intCast]

theorem floor_le_pyRound (x : ℝ) : ⌊x⌋ ≤ pyRound x := by
  simp only [pyRound]
  split_ifs with h1 h2
  · exact le_refl _
  · omega
  · rw [round_eq]
    exact Int.floor_le_floor (by linarith)

theorem pyRound_le_floor_add_one (x : ℝ) : pyRound x ≤ ⌊x⌋ + 1 := by
  simp only [pyRound]
  split_ifs with h1 h2
  · omega
  · omega
  · rw [round_eq]
    have h3 : ⌊x + 1 / 2⌋ ≤ ⌊x + 1⌋ := Int.floor_le_floor (by linarith)
    rw [Int.floor_add_one] at h3
    exact h3

theorem pyRound_mono {x y : ℝ} (h : x ≤ y) : pyRound x ≤ pyRound y := by
  rcases lt_or_le ⌊x⌋ ⌊y⌋ with hf | hf
  · calc pyRound x ≤ ⌊x⌋ + 1 := pyRound_le_floor_add_one x
      _ ≤ ⌊y⌋ := by omega
      _ ≤ pyRound y := floor_le_pyRound y
  · have hfe : ⌊x⌋ = ⌊y⌋ := le_antisymm (Int.floor_le_floor h) hf
    have hc : ((⌊x⌋ : ℤ) : ℝ) = ((⌊y⌋ : ℤ) : ℝ) := by exact_mod_cast hfe
    have hfr : Int.fract x ≤ Int.fract y := by
      simp only [Int.fract]
      linarith
    by_cases h1 : Int.fract x = 1 / 2 <;> by_cases h2 : Int.fract y = 1 / 2
    · have hxy : x = y := by
        have hx := Int.floor_add_fract x
        have hy := Int.floor_add_fract y
        rw [h1] at hx
        rw [h2] at hy
        linarith
      rw [hxy]
    · have hfy : 1 / 2 < Int.fract y := lt_of_le_of_ne (h1 ▸ hfr) (Ne.symm h2)
      have hry : round y = ⌊y⌋ + 1 := by
        rw [round_eq]
        have hy := Int.floor_add_fract y
        have hlt1 := Int.fract_lt_one y
        rw [Int.floor_eq_iff]
        constructor
        · push_cast
          linarith
        · push_cast
          linarith
      simp only [pyRound, if_pos h1, if_neg h2, hry]
      split_ifs with hpar
      · omega
      · omega
    · have hfx : Int.fract x < 1 / 2 := lt_of_le_of_ne (h2 ▸ hfr) h1
      have hrx : round x = ⌊x⌋ := by
        rw [round_eq]
        have hx := Int.floor_add_fract x
        have h0 := Int.fract_nonneg x
        rw [Int.floor_eq_iff]
        constructor
        · linarith
        · linarith
      simp only [pyRound, if_neg h1, if_pos h2, hrx]
      split_ifs with hpar
      · omega
      · omega
    · simp only [pyRound, if_neg h1, if_neg h2, round_eq, round_eq]
      exact Int.floor_le_floor (by linarith)

/- Timing loop lemmas. -/

theorem time_for_segment_nonneg (speed segment_distance : ℝ) (k : ℕ) (e : ℤ) (cur : ℝ)
    (hsd : 0 ≤ segment_distance) :
    0 ≤ time_for_segment speed segment_distance k e cur := by
  show 0 ≤ if speed > (1e-9 : ℝ) then segment_distance / speed
    else if k > 0 ∧ (e : ℝ) - cur > 0 then ((e : ℝ) - cur) / (k : ℝ) else 0
  split_ifs with h1 h2
  · exact div_nonneg hsd (by linarith [(by norm_num : (0 : ℝ) < 1e-9)])
  · exact div_nonneg (le_of_lt h2.2) (Nat.cast_nonneg _)
  · exact le_refl 0

theorem timingAux_bound_chain (speed : ℝ) (e : ℤ) :
    ∀ (rest : List P3) (prev : P3) (current : ℝ),
      (∀ w ∈ timingAux speed e prev rest current, w.timestamp_minutes ≤ e) ∧
      List.Chain (· ≤ ·) (min (pyRound current) e)
        ((timingAux speed e prev rest current).map Waypoint.timestamp_minutes) := by
  intro rest
  induction rest with
  | nil =>
    intro prev current
    constructor
    · intro w hw
      simp [timingAux] at hw
    · simp [timingAux]
  | cons p rest ih =>
    intro prev current
    have htfs : 0 ≤ time_for_segment speed (_calculate_distance prev p) (rest.length + 1)
        e current :=
      time_for_segment_nonneg _ _ _ _ _ (Real.sqrt_nonneg _)
    have hmono : min (pyRound current) e ≤
        min (pyRound (current + time_for_segment speed (_calculate_distance prev p)
          (rest.length + 1) e current)) e :=
      min_le_min (pyRound_mono (by linarith)) (le_refl e)
    constructor
    · intro w hw
      simp only [timingAux, List.mem_cons] at hw
      rcases hw with rfl | hw
      · exact min_le_right _ _
      · exact (ih p (current + time_for_segment speed (_calculate_distance prev p)
          (rest.length + 1) e current)).1 w hw
    · simp only [timingAux, List.map_cons]
      exact List.Chain.cons hmono (ih p (current + time_for_segment speed
        (_calculate_distance prev p) (rest.length + 1) e current)).2

/- Snap-to-end lemmas. -/

theorem snapLast_cons_cons (e : ℤ) (a b : Waypoint) (l : List Waypoint) :
    snapLast e (a :: b :: l) = a :: snapLast e (b :: l) := rfl

theorem mem_snapLast (e : ℤ) :
    ∀ (l : List Waypoint) (w : Waypoint), w ∈ snapLast e l →
      w ∈ l ∨ w.timestamp_minutes = e := by
  intro l
  induction l with
  | nil =>
    intro w hw
    simp [snapLast] at hw
  | cons a l ih =>
    intro w hw
    cases l with
    | nil =>
      simp only [snapLast] at hw
      split_ifs at hw with h
      · simp only [List.mem_singleton] at hw
        subst hw
        right
        rfl
      · simp only [List.mem_singleton] at hw
        subst hw
        left
        simp
    | cons b l' =>
      rw [snapLast_cons_cons] at hw
      rcases List.mem_cons.mp hw with rfl | hw'
      · exact Or.inl (List.mem_cons_self _ _)
      · rcases ih w hw' with h | h
        · exact Or.inl (List.mem_cons_of_mem _ h)
        · exact Or.inr h

theorem snapLast_sorted (e : ℤ) :
    ∀ l : List Waypoint,
      l.Pairwise (fun a b => a.timestamp_minutes ≤ b.timestamp_minutes) →
      (∀ w ∈ l, w.timestamp_minutes ≤ e) →
      (snapLast e l).Pairwise (fun a b => a.timestamp_minutes ≤ b.timestamp_minutes) ∧
        ∀ w ∈ snapLast e l, w.timestamp_minutes ≤ e := by
  intro l
  induction l with
  | nil =>
    intro _ _
    simp [snapLast]
  | cons a l ih =>
    intro hp hb
    cases l with
    | nil =>
      simp only [snapLast]
      split_ifs with h
      · refine ⟨by simp, ?_⟩
        intro w hw
        simp only [List.mem_singleton] at hw
        subst hw
        exact le_refl e
      · refine ⟨by simp, ?_⟩
        intro w hw
        simp only [List.mem_singleton] at hw
        rw [hw]
        exact hb a (List.mem_cons_self _ _)
    | cons b l' =>
      rw [snapLast_cons_cons]
      obtain ⟨ha, hp'⟩ := List.pairwise_cons.mp hp
      have hb' : ∀ w ∈ b :: l', w.timestamp_minutes ≤ e := fun w hw =>
        hb w (List.mem_cons_of_mem _ hw)
      obtain ⟨hps, hbs⟩ := ih hp' hb'
      refine ⟨List.pairwise_cons.mpr ⟨?_, hps⟩, ?_⟩
      · intro w hw
        rcases mem_snapLast e (b :: l') w hw with h | h
        · exact ha w h
        · rw [h]
          exact hb a (List.mem_cons_self _ _)
      · intro w hw
        rcases List.mem_cons.mp hw with rfl | hw'
        · exact hb _ (List.mem_cons_self _ _)
        · exact hbs w hw'

theorem pairwise_map_const_timestamp (s : ℤ) :
    ∀ l : List P3, (l.map fun w => (⟨w.x, w.y, w.z, s⟩ : Waypoint)).Pairwise
      (fun a b => a.timestamp_minutes ≤ b.timestamp_minutes) := by
  intro l
  induction l with
  | nil => simp
  | cons a l ih =>
    simp only [List.map_cons, List.pairwise_cons]
    refine ⟨?_, ih⟩
    intro w hw
    simp only [List.mem_map] at hw
    obtain ⟨p, _, rfl⟩ := hw
    exact le_refl s

theorem snapped_timing_sorted_bounded (spd : ℝ) (s e : ℤ) (h : s < e) (wp0 : P3)
    (rest : List P3) :
    (snapLast e (⟨wp0.x, wp0.y, wp0.z, s⟩ ::
        timingAux spd e wp0 rest ((s : ℤ) : ℝ))).Pairwise
      (fun a b => a.timestamp_minutes ≤ b.timestamp_minutes) ∧
    ∀ w ∈ snapLast e (⟨wp0.x, wp0.y, wp0.z, s⟩ ::
        timingAux spd e wp0 rest ((s : ℤ) : ℝ)), w.timestamp_minutes ≤ e := by
  obtain ⟨hb0, hc0⟩ := timingAux_bound_chain spd e rest wp0 ((s : ℤ) : ℝ)
  have hanchor : min (pyRound ((s : ℤ) : ℝ)) e = s := by
    rw [pyRound_intCast]
    exact min_eq_left (le_of_lt h)
  rw [hanchor] at hc0
  have hpw_int := List.chain_iff_pairwise.mp hc0
  have hpw : (⟨wp0.x, wp0.y, wp0.z, s⟩ ::
      timingAux spd e wp0 rest ((s : ℤ) : ℝ)).Pairwise
        (fun a b => a.timestamp_minutes ≤ b.timestamp_minutes) :=
    List.pairwise_map.mp hpw_int
  have hball : ∀ w ∈ (⟨wp0.x, wp0.y, wp0.z, s⟩ ::
      timingAux spd e wp0 rest ((s : ℤ) : ℝ)), w.timestamp_minutes ≤ e := by
    intro w hw
    rcases List.mem_cons.mp hw with rfl | hw'
    · exact le_of_lt h
    · exact hb0 w hw'
  exact snapLast_sorted e _ hpw hball

/-- Claim C6: for every primary mission and start strictly before end, the
computed waypoint timestamps are non-decreasing in mission order and none
exceeds end; each timestamp is min(round(current), end) at assignment, and
the final snap-to-end adjustment preserves both properties. -/
theorem calculate_waypoints_sorted_bounded (raw : List P3) (s e : ℤ) (h : s < e) :
    (calculate_waypoints raw s e).Pairwise
      (fun a b => a.timestamp_minutes ≤ b.timestamp_minutes) ∧
    ∀ w ∈ calculate_waypoints raw s e, w.timestamp_minutes ≤ e := by
  rcases raw with _ | ⟨wp0, _ | ⟨wp1, rest⟩⟩
  · constructor
    · simp [calculate_waypoints]
    · intro w hw
      simp [calculate_waypoints] at hw
  · constructor
    · simp [calculate_waypoints]
    · intro w hw
      simp only [calculate_waypoints, List.mem_singleton] at hw
      subst hw
      exact le_of_lt h
  · simp only [calculate_waypoints]
    split_ifs with htot
    · constructor
      · exact pairwise_map_const_timestamp s _
      · intro w hw
        simp only [List.mem_map] at hw
        obtain ⟨p, _, rfl⟩ := hw
        exact le_of_lt h
    · exact snapped_timing_sorted_bounded _ s e h wp0 (wp1 :: rest)

/-- Witness for claim C6 at the Scenario A mission. -/
theorem calculate_waypoints_sorted_bounded_witness :
    (calculate_waypoints [⟨0, 0, 10⟩, ⟨100, 0, 10⟩] 480 490).Pairwise
      (fun a b => a.timestamp_minutes ≤ b.timestamp_minutes) ∧
    ∀ w ∈ calculate_waypoints [⟨0, 0, 10⟩, ⟨100, 0, 10⟩] 480 490,
      w.timestamp_minutes ≤ 490 :=
  calculate_waypoints_sorted_bounded [⟨0, 0, 10⟩, ⟨100, 0, 10⟩] 480 490 (by omega)

theorem single_segment_time (s e : ℤ) (hse : s < e) (D : ℝ) (hD : 0 < D) :
    ((s : ℤ) : ℝ) + time_for_segment (D / ((e - s : ℤ) : ℝ)) D 1 e ((s : ℤ) : ℝ) =
      ((e : ℤ) : ℝ) := by
  have hT : (0 : ℝ) < ((e - s : ℤ) : ℝ) := by exact_mod_cast (by omega : (0 : ℤ) < e - s)
  have hcast : ((e - s : ℤ) : ℝ) = ((e : ℤ) : ℝ) - ((s : ℤ) : ℝ) := by push_cast; ring
  show ((s : ℤ) : ℝ) +
      (if D / ((e - s : ℤ) : ℝ) > (1e-9 : ℝ) then D / (D / ((e - s : ℤ) : ℝ))
        else if (1 : ℕ) > 0 ∧ ((e : ℤ) : ℝ) - ((s : ℤ) : ℝ) > 0 then
          (((e : ℤ) : ℝ) - ((s : ℤ) : ℝ)) / ((1 : ℕ) : ℝ)
        else 0) = ((e : ℤ) : ℝ)
  split_ifs with h1 h2
  · rw [div_div_eq_mul_div, mul_comm, mul_div_assoc, div_self (ne_of_gt hD), mul_one,
      hcast]
    ring
  · rw [Nat.cast_one, div_one]
    ring
  · exfalso
    apply h2
    refine ⟨by norm_num, ?_⟩
    linarith [hcast, hT]

/-- Claim C3: for a primary mission of exactly two waypoints at distinct
coordinates and a valid window, the Mission Timing Model assigns the first
waypoint exactly the start time and the last waypoint exactly the end time. -/
theorem primary_two_waypoint_timestamps (p1 p2 : P3) (s e : ℤ)
    (hne : p1 ≠ p2) (hse : s < e) :
    calculate_waypoints [p1, p2] s e =
      [⟨p1.x, p1.y, p1.z, s⟩, ⟨p2.x, p2.y, p2.z, e⟩] := by
  have hq : 0 < _calculate_distance_sq p1 p2 := by
    have hcomp : p1.x ≠ p2.x ∨ p1.y ≠ p2.y ∨ p1.z ≠ p2.z := by
      by_contra hc
      push_neg at hc
      apply hne
      obtain ⟨hx, hy, hz⟩ := hc
      cases p1
      cases p2
      simp_all
    have h1 : 0 ≤ (p2.x - p1.x) ^ 2 := sq_nonneg _
    have h2 : 0 ≤ (p2.y - p1.y) ^ 2 := sq_nonneg _
    have h3 : 0 ≤ (p2.z - p1.z) ^ 2 := sq_nonneg _
    unfold _calculate_distance_sq
    rcases hcomp with hx | hy | hz
    · have h4 : 0 < (p2.x - p1.x) ^ 2 :=
        lt_of_le_of_ne h1 (Ne.symm (pow_ne_zero _ (sub_ne_zero.mpr (Ne.symm hx))))
      linarith
    · have h4 : 0 < (p2.y - p1.y) ^ 2 :=
        lt_of_le_of_ne h2 (Ne.symm (pow_ne_zero _ (sub_ne_zero.mpr (Ne.symm hy))))
      linarith
    · have h4 : 0 < (p2.z - p1.z) ^ 2 :=
        lt_of_le_of_ne h3 (Ne.symm (pow_ne_zero _ (sub_ne_zero.mpr (Ne.symm hz))))
      linarith
  have hD : 0 < _calculate_distance p1 p2 := by
    unfold _calculate_distance
    rw [Real.sqrt_pos]
    exact_mod_cast hq
  have htot : total_distance_of [p1, p2] = _calculate_distance p1 p2 := by
    simp [total_distance_of]
  simp only [calculate_waypoints]
  rw [htot, if_neg (ne_of_gt hD)]
  have hstep : timingAux (_calculate_distance p1 p2 / ((e - s : ℤ) : ℝ)) e p1 [p2]
      ((s : ℤ) : ℝ) =
      [⟨p2.x, p2.y, p2.z, min (pyRound (((s : ℤ) : ℝ) +
        time_for_segment (_calculate_distance p1 p2 / ((e - s : ℤ) : ℝ))
          (_calculate_distance p1 p2) 1 e ((s : ℤ) : ℝ))) e⟩] := rfl
  rw [hstep, single_segment_time s e hse _ hD, pyRound_intCast, min_self]
  rw [snapLast_cons_cons]
  simp [snapLast]

/-- Witness for claim C3 at the Scenario A mission: waypoints (0,0,10) and
(100,0,10), window 480 to 490 minutes. -/
theorem primary_two_waypoint_timestamps_witness :
    calculate_waypoints [⟨0, 0, 10⟩, ⟨100, 0, 10⟩] 480 490 =
      [⟨0, 0, 10, 480⟩, ⟨100, 0, 10, 490⟩] :=
  primary_two_waypoint_timestamps ⟨0, 0, 10⟩ ⟨100, 0, 10⟩ 480 490 (by decide) (by omega)

/- Branch lemmas for the point-to-segment distance. -/

theorem distSq_degenerate (P S E : Waypoint)
    (h : _vector_norm_sq (_subtract_vectors E S) < FLOAT_TOLERANCE) :
    distSq_point_to_segment P S E = _vector_norm_sq (_subtract_vectors P S) := by
  simp only [distSq_point_to_segment]
  rw [if_pos h]

theorem distSq_t_lt_zero (P S E : Waypoint)
    (hseg : ¬ _vector_norm_sq (_subtract_vectors E S) < FLOAT_TOLERANCE)
    (h0 : _dot_product (_subtract_vectors P S) (_subtract_vectors E S) /
      _vector_norm_sq (_subtract_vectors E S) < 0) :
    distSq_point_to_segment P S E = _vector_norm_sq (_subtract_vectors P S) := by
  simp only [distSq_point_to_segment]
  rw [if_neg hseg, if_pos h0]

theorem distSq_t_gt_one (P S E : Waypoint)
    (hseg : ¬ _vector_norm_sq (_subtract_vectors E S) < FLOAT_TOLERANCE)
    (h0 : ¬ _dot_product (_subtract_vectors P S) (_subtract_vectors E S) /
      _vector_norm_sq (_subtract_vectors E S) < 0)
    (h1 : _dot_product (_subtract_vectors P S) (_subtract_vectors E S) /
      _vector_norm_sq (_subtract_vectors E S) > 1) :
    distSq_point_to_segment P S E = _vector_norm_sq (_subtract_vectors P E) := by
  simp only [distSq_point_to_segment]
  rw [if_neg hseg, if_neg h0, if_pos h1]

theorem distSq_t_mid (P S E : Waypoint)
    (hseg : ¬ _vector_norm_sq (_subtract_vectors E S) < FLOAT_TOLERANCE)
    (h0 : ¬ _dot_product (_subtract_vectors P S) (_subtract_vectors E S) /
      _vector_norm_sq (_subtract_vectors E S) < 0)
    (h1 : ¬ _dot_product (_subtract_vectors P S) (_subtract_vectors E S) /
      _vector_norm_sq (_subtract_vectors E S) > 1) :
    distSq_point_to_segment P S E =
      _vector_norm_sq
        ⟨P.x - (S.x + (_dot_product (_subtract_vectors P S) (_subtract_vectors E S) /
            _vector_norm_sq (_subtract_vectors E S)) * (_subtract_vectors E S).x),
         P.y - (S.y + (_dot_product (_subtract_vectors P S) (_subtract_vectors E S) /
            _vector_norm_sq (_subtract_vectors E S)) * (_subtract_vectors E S).y),
         P.z - (S.z + (_dot_product (_subtract_vectors P S) (_subtract_vectors E S) /
            _vector_norm_sq (_subtract_vectors E S)) * (_subtract_vectors E S).z)⟩ := by
  simp only [distSq_point_to_segment]
  rw [if_neg hseg, if_neg h0, if_neg h1]

theorem dot_pointAt_sub (S E : Waypoint) (u : ℚ) :
    _dot_product (_subtract_vectors (pointAt S E u) S) (_subtract_vectors E S) =
      u * _vector_norm_sq (_subtract_vectors E S) := by
  simp only [pointAt, _subtract_vectors, _dot_product, _vector_norm_sq]
  ring

theorem t_pointAt (S E : Waypoint) (u : ℚ)
    (hnz : _vector_norm_sq (_subtract_vectors E S) ≠ 0) :
    _dot_product (_subtract_vectors (pointAt S E u) S) (_subtract_vectors E S) /
      _vector_norm_sq (_subtract_vectors E S) = u := by
  rw [dot_pointAt_sub]
  field_simp

theorem distance_clamp (P S E : Waypoint) (t : ℚ)
    (hseg : ¬ _vector_norm_sq (_subtract_vectors E S) < FLOAT_TOLERANCE)
    (ht : _dot_product (_subtract_vectors P S) (_subtract_vectors E S) /
      _vector_norm_sq (_subtract_vectors E S) = t) :
    distance_point_to_segment_3d P S E =
      Real.sqrt (_vector_norm_sq (_subtract_vectors P (pointAt S E (max 0 (min 1 t))))) := by
  unfold distance_point_to_segment_3d
  by_cases h0 : _dot_product (_subtract_vectors P S) (_subtract_vectors E S) /
      _vector_norm_sq (_subtract_vectors E S) < 0
  · have ht0 : t < 0 := ht ▸ h0
    have hminmax : max 0 (min 1 t) = 0 := by
      rw [min_eq_right (le_of_lt (lt_trans ht0 zero_lt_one)), max_eq_left (le_of_lt ht0)]
    rw [distSq_t_lt_zero P S E hseg h0, hminmax]
    congr 1
    rw [Rat.cast_inj]
    simp only [pointAt, _subtract_vectors, _vector_norm_sq]
    ring
  · by_cases h1 : _dot_product (_subtract_vectors P S) (_subtract_vectors E S) /
        _vector_norm_sq (_subtract_vectors E S) > 1
    · have ht1 : 1 < t := ht ▸ h1
      have hminmax : max 0 (min 1 t) = 1 := by
        rw [min_eq_left (le_of_lt ht1), max_eq_right (by norm_num : (0 : ℚ) ≤ 1)]
      rw [distSq_t_gt_one P S E hseg h0 h1, hminmax]
      congr 1
      rw [Rat.cast_inj]
      simp only [pointAt, _subtract_vectors, _vector_norm_sq]
      ring
    · have ht0 : ¬ t < 0 := ht ▸ h0
      have ht1 : ¬ t > 1 := ht ▸ h1
      have hminmax : max 0 (min 1 t) = t := by
        rw [min_eq_right (not_lt.mp ht1), max_eq_right (not_lt.mp ht0)]
      rw [distSq_t_mid P S E hseg h0 h1, hminmax, ht]
      congr 1

/-- Claim C7 (amended): for a non-degenerate segment the returned value is
the distance from P to the projection clamped to the segment; hence a point
on the segment has distance 0, a point beyond the end along the line has
distance to the end waypoint, and a point before the start has distance to
the start waypoint.  For a degenerate segment the value returned is the
distance from P to the start waypoint, which is nonzero for some points on
the segment. -/
theorem distance_point_to_segment_3d_cases (P S E : Waypoint)
    (hnd : FLOAT_TOLERANCE ≤ _vector_norm_sq (_subtract_vectors E S)) :
    (distance_point_to_segment_3d P S E =
      Real.sqrt (_vector_norm_sq (_subtract_vectors P (pointAt S E
        (max 0 (min 1 (_dot_product (_subtract_vectors P S) (_subtract_vectors E S) /
          _vector_norm_sq (_subtract_vectors E S)))))))) ∧
    (∀ u : ℚ, 0 ≤ u → u ≤ 1 → distance_point_to_segment_3d (pointAt S E u) S E = 0) ∧
    (∀ u : ℚ, 1 < u → distance_point_to_segment_3d (pointAt S E u) S E =
      Real.sqrt (_vector_norm_sq (_subtract_vectors (pointAt S E u) E))) ∧
    (∀ u : ℚ, u < 0 → distance_point_to_segment_3d (pointAt S E u) S E =
      Real.sqrt (_vector_norm_sq (_subtract_vectors (pointAt S E u) S))) ∧
    (∀ P1 S1 E1 : Waypoint, _vector_norm_sq (_subtract_vectors E1 S1) < FLOAT_TOLERANCE →
      distance_point_to_segment_3d P1 S1 E1 =
        Real.sqrt (_vector_norm_sq (_subtract_vectors P1 S1))) := by
  have hε : (0 : ℚ) < FLOAT_TOLERANCE := by norm_num [FLOAT_TOLERANCE]
  have hpos : 0 < _vector_norm_sq (_subtract_vectors E S) := lt_of_lt_of_le hε hnd
  have hnz : _vector_norm_sq (_subtract_vectors E S) ≠ 0 := ne_of_gt hpos
  have hseg : ¬ _vector_norm_sq (_subtract_vectors E S) < FLOAT_TOLERANCE := not_lt.mpr hnd
  refine ⟨?_, ?_, ?_, ?_, ?_⟩
  · exact distance_clamp P S E _ hseg rfl
  · intro u h0u h1u
    have ht := t_pointAt S E u hnz
    have h0 : ¬ _dot_product (_subtract_vectors (pointAt S E u) S) (_subtract_vectors E S) /
        _vector_norm_sq (_subtract_vectors E S) < 0 := by
      rw [ht]
      exact not_lt.mpr h0u
    have h1 : ¬ _dot_product (_subtract_vectors (pointAt S E u) S) (_subtract_vectors E S) /
        _vector_norm_sq (_subtract_vectors E S) > 1 := by
      rw [ht]
      exact not_lt.mpr h1u
    unfold distance_point_to_segment_3d
    rw [distSq_t_mid (pointAt S E u) S E hseg h0 h1, ht]
    have harg : _vector_norm_sq
        ⟨(pointAt S E u).x - (S.x + u * (_subtract_vectors E S).x),
         (pointAt S E u).y - (S.y + u * (_subtract_vectors E S).y),
         (pointAt S E u).z - (S.z + u * (_subtract_vectors E S).z)⟩ = 0 := by
      simp only [pointAt, _subtract_vectors, _vector_norm_sq]
      ring
    rw [harg]
    simp
  · intro u hu
    have ht := t_pointAt S E u hnz
    have h0 : ¬ _dot_product (_subtract_vectors (pointAt S E u) S) (_subtract_vectors E S) /
        _vector_norm_sq (_subtract_vectors E S) < 0 := by
      rw [ht]
      exact not_lt.mpr (by linarith)
    have h1 : _dot_product (_subtract_vectors (pointAt S E u) S) (_subtract_vectors E S) /
        _vector_norm_sq (_subtract_vectors E S) > 1 := by
      rw [ht]
      exact hu
    unfold distance_point_to_segment_3d
    rw [distSq_t_gt_one (pointAt S E u) S E hseg h0 h1]
  · intro u hu
    have ht := t_pointAt S E u hnz
    have h0 : _dot_product (_subtract_vectors (pointAt S E u) S) (_subtract_vectors E S) /
        _vector_norm_sq (_subtract_vectors E S) < 0 := by
      rw [ht]
      exact hu
    unfold distance_point_to_segment_3d
    rw [distSq_t_lt_zero (pointAt S E u) S E hseg h0]
  · intro P1 S1 E1 h
    unfold distance_point_to_segment_3d
    rw [distSq_degenerate P1 S1 E1 h]

/-- Counterexample to claim C7 as stated: the segment from (0,0,0) to
(0.00001,0,0) is degenerate for the 1e-9 squared-norm test, and its midpoint
(0.000005,0,0), which lies exactly on the segment, receives the nonzero
distance 0.000005 instead of 0. -/
theorem point_on_degenerate_segment_distance_pos :
    (⟨1/200000, 0, 0, 0⟩ : Waypoint) =
      pointAt ⟨0, 0, 0, 0⟩ ⟨1/100000, 0, 0, 0⟩ (1/2) ∧
    (0 : ℚ) ≤ 1/2 ∧ (1/2 : ℚ) ≤ 1 ∧
    distance_point_to_segment_3d ⟨1/200000, 0, 0, 0⟩ ⟨0, 0, 0, 0⟩ ⟨1/100000, 0, 0, 0⟩ ≠ 0 := by
  refine ⟨?_, by norm_num, by norm_num, ?_⟩
  · simp only [pointAt, Waypoint.mk.injEq]
    norm_num
  · unfold distance_point_to_segment_3d
    rw [Real.sqrt_ne_zero']
    have h : distSq_point_to_segment ⟨1/200000, 0, 0, 0⟩ ⟨0, 0, 0, 0⟩ ⟨1/100000, 0, 0, 0⟩ =
        ((1/200000 : ℚ))^2 := by
      rw [distSq_degenerate]
      · simp only [_subtract_vectors, _vector_norm_sq]
        norm_num
      · simp only [_subtract_vectors, _vector_norm_sq, FLOAT_TOLERANCE]
        norm_num
    rw [h]
    norm_num

/-- Witness for claim C7 at the segment from (0,0,0) to (10,0,0) and its
midpoint. -/
theorem distance_point_to_segment_3d_cases_witness :
    distance_point_to_segment_3d (pointAt ⟨0, 0, 0, 0⟩ ⟨10, 0, 0, 0⟩ (1/2)) ⟨0, 0, 0, 0⟩
      ⟨10, 0, 0, 0⟩ = 0 :=
  (distance_point_to_segment_3d_cases (pointAt ⟨0, 0, 0, 0⟩ ⟨10, 0, 0, 0⟩ (1/2))
    ⟨0, 0, 0, 0⟩ ⟨10, 0, 0, 0⟩
    (by norm_num [FLOAT_TOLERANCE, _vector_norm_sq, _subtract_vectors])).2.1 (1/2)
    (by norm_num) (by norm_num)

/- Fold characterization lemmas for find_conflicts. -/

theorem foldl_flag_append {α β : Type} (cond : α → Prop) [DecidablePred cond]
    (f : α → β) :
    ∀ (xs : List α) (acc : Bool × List β),
      xs.foldl (fun a2 x => if cond x then (true, a2.2 ++ [f x]) else a2) acc =
        (acc.1 || xs.any (fun x => decide (cond x)),
         acc.2 ++ xs.filterMap (fun x => if cond x then some (f x) else none)) := by
  intro xs
  induction xs with
  | nil =>
    intro acc
    simp
  | cons x xs ih =>
    intro acc
    by_cases hx : cond x
    · rw [List.foldl_cons, if_pos hx, ih]
      simp [hx, List.append_assoc]
    · rw [List.foldl_cons, if_neg hx, ih]
      simp [hx]

theorem foldl_nested_flag {α β γ : Type} (cond : α → β → Prop)
    [inst : ∀ a b, Decidable (cond a b)] (f : α → β → γ) (ys : α → List β) :
    ∀ (xs : List α) (acc : Bool × List γ),
      xs.foldl (fun a x => (ys x).foldl
        (fun a2 y => if cond x y then (true, a2.2 ++ [f x y]) else a2) a) acc =
      (acc.1 || xs.any (fun x => (ys x).any (fun y => decide (cond x y))),
       acc.2 ++ xs.flatMap (fun x => (ys x).filterMap
         (fun y => if cond x y then some (f x y) else none))) := by
  intro xs
  induction xs with
  | nil =>
    intro acc
    simp
  | cons x xs ih =>
    intro acc
    rw [List.foldl_cons, foldl_flag_append, ih]
    simp [Bool.or_assoc, List.append_assoc]

theorem any_iff_filterMap_ne {α β : Type} (cond : α → Prop) [DecidablePred cond]
    (f : α → β) :
    ∀ xs : List α, ((xs.any fun x => decide (cond x)) = true ↔
      xs.filterMap (fun x => if cond x then some (f x) else none) ≠ []) := by
  intro xs
  induction xs with
  | nil => simp
  | cons x xs ih =>
    by_cases hx : cond x
    · simp [hx]
    · simp [hx, ih]

theorem any_iff_flatMap_ne {α β : Type} (g : α → Bool) (h : α → List β)
    (hg : ∀ x, g x = true ↔ h x ≠ []) :
    ∀ xs : List α, (xs.any g = true ↔ xs.flatMap h ≠ []) := by
  intro xs
  induction xs with
  | nil => simp
  | cons x xs ih =>
    simp only [List.any_cons, List.flatMap_cons, Bool.or_eq_true, ih, hg x]
    constructor
    · rintro (h1 | h1) hc
      · exact h1 (List.append_eq_nil.mp hc).1
      · exact h1 (List.append_eq_nil.mp hc).2
    · intro h1
      by_cases hs : h x = []
      · right
        intro hw
        apply h1
        rw [hs, hw]
        rfl
      · left
        exact hs

theorem outer_fold_characterization (primary_mission : DroneMission) (safety_buffer : ℚ) :
    ∀ (sims : List DroneMission) (acc : Bool × List ConflictRecord),
      sims.foldl (fun acc sim_mission =>
        primary_mission.waypoints.enum.foldl (fun a pw =>
          sim_mission.waypoints.enum.foldl (fun a2 sw =>
            if check_waypoint_collision pw.2 sw.2 then
              (true, a2.2 ++
                [ConflictRecord.waypoint pw.1 pw.2 sim_mission.drone_id sw.1 sw.2])
            else a2) a)
          (primary_mission.get_path_segments.enum.foldl (fun a p =>
            sim_mission.get_path_segments.enum.foldl (fun a2 s =>
              if check_spatio_temporal_segment_conflict p.2 s.2 safety_buffer then
                (true, a2.2 ++
                  [ConflictRecord.segment p.1 (_get_time_interval_for_segment p.2)
                    sim_mission.drone_id s.1 (_get_time_interval_for_segment s.2)])
              else a2) a) acc)) acc =
      (acc.1 || sims.any (fun sim_mission =>
          (primary_mission.get_path_segments.enum.any (fun p =>
            sim_mission.get_path_segments.enum.any (fun s =>
              decide (check_spatio_temporal_segment_conflict p.2 s.2 safety_buffer)))) ||
          (primary_mission.waypoints.enum.any (fun pw =>
            sim_mission.waypoints.enum.any (fun sw =>
              decide (check_waypoint_collision pw.2 sw.2 = true))))),
       acc.2 ++ sims.flatMap (fun sim_mission =>
          segmentConflictRecords primary_mission sim_mission safety_buffer ++
            waypointCollisionRecords primary_mission sim_mission)) := by
  intro sims
  induction sims with
  | nil =>
    intro acc
    simp
  | cons sim sims ih =>
    intro acc
    rw [List.foldl_cons, foldl_nested_flag, foldl_nested_flag, ih]
    simp only [segmentConflictRecords, waypointCollisionRecords, List.any_cons,
      List.flatMap_cons, Bool.or_assoc, List.append_assoc]

/-- Claim C9: find_conflicts reports conflict_found true exactly when its
record list is non-empty (which the caller maps to Conflict Detected versus
Clear through missionStatus), and that record list is exactly the full
enumeration, one record per true pairwise evaluation with no deduplication
and no early termination, ordered by simulated mission, then primary index,
then other index within each category. -/
theorem find_conflicts_spec (primary_mission : DroneMission)
    (simulated_missions : List DroneMission) (safety_buffer : ℚ) :
    ((find_conflicts primary_mission simulated_missions safety_buffer).1 = true ↔
      (find_conflicts primary_mission simulated_missions safety_buffer).2 ≠ []) ∧
    (find_conflicts primary_mission simulated_missions safety_buffer).2 =
      simulated_missions.flatMap (fun sim_mission =>
        segmentConflictRecords primary_mission sim_mission safety_buffer ++
          waypointCollisionRecords primary_mission sim_mission) ∧
    missionStatus (find_conflicts primary_mission simulated_missions safety_buffer).1 =
      if (find_conflicts primary_mission simulated_missions safety_buffer).2 = []
      then "Clear" else "Conflict Detected" := by
  have hfind : find_conflicts primary_mission simulated_missions safety_buffer =
      (simulated_missions.any (fun sim_mission =>
          (primary_mission.get_path_segments.enum.any (fun p =>
            sim_mission.get_path_segments.enum.any (fun s =>
              decide (check_spatio_temporal_segment_conflict p.2 s.2 safety_buffer)))) ||
          (primary_mission.waypoints.enum.any (fun pw =>
            sim_mission.waypoints.enum.any (fun sw =>
              decide (check_waypoint_collision pw.2 sw.2 = true))))),
       simulated_missions.flatMap (fun sim_mission =>
          segmentConflictRecords primary_mission sim_mission safety_buffer ++
            waypointCollisionRecords primary_mission sim_mission)) := by
    have h := outer_fold_characterization primary_mission safety_buffer
      simulated_missions (false, [])
    simp only [Bool.false_or, List.nil_append] at h
    unfold find_conflicts
    exact h
  have hGH : ∀ sim_mission : DroneMission,
      ((primary_mission.get_path_segments.enum.any (fun p =>
          sim_mission.get_path_segments.enum.any (fun s =>
            decide (check_spatio_temporal_segment_conflict p.2 s.2 safety_buffer)))) ||
        (primary_mission.waypoints.enum.any (fun pw =>
          sim_mission.waypoints.enum.any (fun sw =>
            decide (check_waypoint_collision pw.2 sw.2 = true))))) = true ↔
      segmentConflictRecords primary_mission sim_mission safety_buffer ++
        waypointCollisionRecords primary_mission sim_mission ≠ [] := by
    intro sim_mission
    have h1 : (primary_mission.get_path_segments.enum.any (fun p =>
        sim_mission.get_path_segments.enum.any (fun s =>
          decide (check_spatio_temporal_segment_conflict p.2 s.2 safety_buffer)))) = true ↔
        segmentConflictRecords primary_mission sim_mission safety_buffer ≠ [] := by
      simp only [segmentConflictRecords]
      exact any_iff_flatMap_ne _ _ (fun p => any_iff_filterMap_ne _ _ _) _
    have h2 : (primary_mission.waypoints.enum.any (fun pw =>
        sim_mission.waypoints.enum.any (fun sw =>
          decide (check_waypoint_collision pw.2 sw.2 = true)))) = true ↔
        waypointCollisionRecords primary_mission sim_mission ≠ [] := by
      simp only [waypointCollisionRecords]
      exact any_iff_flatMap_ne _ _ (fun pw => any_iff_filterMap_ne _ _ _) _
    rw [Bool.or_eq_true, h1, h2]
    constructor
    · rintro (h | h) hc
      · exact h (List.append_eq_nil.mp hc).1
      · exact h (List.append_eq_nil.mp hc).2
    · intro h
      by_cases hs : segmentConflictRecords primary_mission sim_mission safety_buffer = []
      · right
        intro hw
        apply h
        rw [hs, hw]
        rfl
      · left
        exact hs
  have hiff : (find_conflicts primary_mission simulated_missions safety_buffer).1 = true ↔
      (find_conflicts primary_mission simulated_missions safety_buffer).2 ≠ [] := by
    rw [hfind]
    exact any_iff_flatMap_ne _ _ hGH _
  refine ⟨hiff, by rw [hfind], ?_⟩
  by_cases hc : (find_conflicts primary_mission simulated_missions safety_buffer).2 = []
  · have hfalse : (find_conflicts primary_mission simulated_missions safety_buffer).1 = false := by
      rcases Bool.eq_false_or_eq_true
        (find_conflicts primary_mission simulated_missions safety_buffer).1 with h | h
      · exact absurd hc (hiff.mp h)
      · exact h
    rw [hfalse, if_pos hc]
    rfl
  · have htrue : (find_conflicts primary_mission simulated_missions safety_buffer).1 = true :=
      hiff.mpr hc
    rw [htrue, if_neg hc]
    rfl

/- Loader lemmas. -/

theorem mkWaypointWithZ_error (x y z : ℚ) (tm : ℤ) :
    mkWaypointWithZ x y z tm =
      Except.error "TypeError: Waypoint.init got an unexpected keyword argument z" := rfl

theorem snapLast_ne_nil (e : ℤ) (w : Waypoint) (l : List Waypoint) :
    snapLast e (w :: l) ≠ [] := by
  cases l with
  | nil =>
    simp only [snapLast]
    split_ifs <;> simp
  | cons b l' =>
    rw [snapLast_cons_cons]
    simp

theorem calculate_waypoints_ne_nil (raw : List P3) (s e : ℤ) (h : raw ≠ []) :
    calculate_waypoints raw s e ≠ [] := by
  rcases raw with _ | ⟨p, _ | ⟨q, rest⟩⟩
  · exact absurd rfl h
  · simp [calculate_waypoints]
  · simp only [calculate_waypoints]
    split_ifs
    · simp
    · exact snapLast_ne_nil _ _ _

theorem mapM_mkWaypoint_cons_error (w : Waypoint) (ws : List Waypoint) :
    (w :: ws).mapM (fun w => mkWaypointWithZ w.x w.y w.z w.timestamp_minutes) =
      Except.error "TypeError: Waypoint.init got an unexpected keyword argument z" := rfl

/-- Claim C5: every input that passes the loader's explicit validation
checks (primary mission with at least one waypoint, valid HHMM times, start
before end) still makes load_missions_from_json raise, because every
Waypoint it constructs is passed the keyword z, which the Waypoint dataclass
of src/src/models.py does not declare. -/
theorem load_missions_always_raises (data : MissionFileData)
    (h : passesValidation data = true) :
    ∃ msg, load_missions_from_json data = Except.error msg := by
  simp only [passesValidation, Bool.and_eq_true] at h
  obtain ⟨⟨⟨⟨h1, h2⟩, h3⟩, h4⟩, h5⟩ := h
  have hne : data.primary_mission.waypoints ≠ [] := by
    intro hc
    rw [hc] at h1
    simp at h1
  cases hps : _parse_hhmm_to_minutes data.primary_mission.start_time with
  | error e0 =>
    rw [hps] at h2
    simp [Except.isOk, Except.toBool] at h2
  | ok sv =>
    cases hpe : _parse_hhmm_to_minutes data.primary_mission.end_time with
    | error e0 =>
      rw [hpe] at h3
      simp [Except.isOk, Except.toBool] at h3
    | ok ev =>
      rw [hps, hpe] at h4
      simp only [decide_eq_true_eq] at h4
      obtain ⟨w, ws, hcw⟩ := List.exists_cons_of_ne_nil
        (calculate_waypoints_ne_nil data.primary_mission.waypoints sv ev hne)
      unfold load_missions_from_json
      cases hm : data.simulated_missions.mapM loadSimMission with
      | error e1 =>
        exact ⟨e1, rfl⟩
      | ok sims =>
        refine ⟨"TypeError: Waypoint.init got an unexpected keyword argument z", ?_⟩
        simp only [except_bind_ok]
        rw [if_neg hne]
        simp only [hps, except_bind_ok, hpe]
        rw [if_neg (not_le.mpr h4)]
        rw [hcw, mapM_mkWaypoint_cons_error, except_bind_error]

/-- Witness for claim C5: a validation-passing file with one primary
waypoint (0,0,10), window 0800 to 0810, and no simulated missions. -/
theorem load_missions_always_raises_witness :
    passesValidation ⟨⟨"primary", [⟨0, 0, 10⟩], 800, 810⟩, []⟩ = true ∧
    ∃ msg, load_missions_from_json ⟨⟨"primary", [⟨0, 0, 10⟩], 800, 810⟩, []⟩ =
      Except.error msg :=
  ⟨rfl, load_missions_always_raises ⟨⟨"primary", [⟨0, 0, 10⟩], 800, 810⟩, []⟩ rfl⟩
